import Mathlib

/-!
Shallow embedding of the anomaly-detection subsystem of the BlockchainProject
repository (src/anomaly.py, with the block/transaction data model of
src/models.py).

Python floats are modelled as exact numbers: the stateless rule checker and
the feature extractor use `ℚ`; the statistical detector uses `ℝ`, because its
baseline stores a sample standard deviation (`math.sqrt` via
`statistics.stdev`), which is irrational in general.

String values are embedded literally where the source produces a string
literal.  The one formatted string (the anomalous-features reason, a Python
f-string interpolating the float `z_threshold`) keeps its fixed parts and the
joined feature names but elides the decimal rendering of the threshold, since
floating-point decimal formatting is not modelled.  Rule-violation description
strings (which interpolate `:.2f`/`:.3f`-formatted floats) are likewise
abstracted to a three-constructor type naming which rule fired; no claim
depends on their text.
-/

namespace BlockSim

/-- Feature vector: the four derived numeric signals produced by
`AnomalyDetector.extract_features` (src/anomaly.py lines 70-88) and consumed
by `process_block` and `check_rules`. -/
structure Features (α : Type) where
  num_txs : α
  total_amount : α
  max_amount : α
  time_delta : α
  deriving DecidableEq

/-- Transaction (src/models.py): sender, receiver, amount. -/
structure Transaction where
  sender : String
  receiver : String
  amount : ℚ
  deriving DecidableEq

/-- Block (src/models.py).  The derived `hash` field (a SHA-256 digest of the
other fields) is not embedded: it is never read by the anomaly subsystem. -/
structure Block where
  index : ℕ
  timestamp : ℚ
  transactions : List Transaction
  previous_hash : String
  nonce : ℕ
  deriving DecidableEq

/-- Python's `max(iterable, default=d)`: the running pairwise maximum of a
list, or `d` when the list is empty. -/
def maxOrDefault (l : List ℚ) (d : ℚ) : ℚ :=
  match l with
  | [] => d
  | x :: xs => xs.foldl max x

/-- `AnomalyDetector.extract_features` (src/anomaly.py lines 70-88). -/
def extract_features (current_block : Block) (previous_block : Option Block) :
    Features ℚ :=
  { num_txs := (current_block.transactions.length : ℚ)
    total_amount :=
      if current_block.transactions = [] then 0
      else (current_block.transactions.map Transaction.amount).sum
    max_amount := maxOrDefault (current_block.transactions.map Transaction.amount) 0
    time_delta :=
      match previous_block with
      | some pb => current_block.timestamp - pb.timestamp
      | none => 0 }

/-- Which of the three security rules fired.  Each constructor stands for the
corresponding description string appended by `check_rules`
(src/anomaly.py lines 176-192); the strings interpolate float-formatted
amounts, which are abstracted away. -/
inductive RuleViolation
  | rule1
  | rule2
  | rule3
  deriving DecidableEq

/-- Result of `RuleBasedSecurityChecker.check_rules`: the `rule_alert` flag
and the ordered list of violations (src/anomaly.py lines 194-197). -/
structure RuleDecision where
  rule_alert : Bool
  violations : List RuleViolation
  deriving DecidableEq

/-- Configuration of `RuleBasedSecurityChecker` (src/anomaly.py lines 153-166). -/
structure RuleBasedSecurityChecker where
  max_single_tx_amount : ℚ
  max_block_total_amount : ℚ
  min_time_delta : ℚ
  deriving DecidableEq

/-- `RuleBasedSecurityChecker.check_rules` (src/anomaly.py lines 168-198):
three independent threshold checks, each appending its violation in order. -/
def check_rules (c : RuleBasedSecurityChecker) (features : Features ℚ) :
    RuleDecision :=
  let violations : List RuleViolation := []
  let violations :=
    if features.max_amount > c.max_single_tx_amount
    then violations ++ [RuleViolation.rule1] else violations
  let violations :=
    if features.total_amount > c.max_block_total_amount
    then violations ++ [RuleViolation.rule2] else violations
  let violations :=
    if features.time_delta ≠ 0 ∧ features.time_delta < c.min_time_delta
    then violations ++ [RuleViolation.rule3] else violations
  { rule_alert := decide (0 < violations.length), violations := violations }

/-- One feature's baseline statistics: the (mean, std) pair stored in the
`self.stats[feat]` sub-dict of `AnomalyDetector` (src/anomaly.py lines 22-27). -/
structure StatPair where
  mean : ℝ
  std : ℝ

/-- The four per-feature (mean, std) pairs of `self.stats`. -/
structure BaselineStats where
  num_txs : StatPair
  total_amount : StatPair
  max_amount : StatPair
  time_delta : StatPair

/-- State of `AnomalyDetector` (src/anomaly.py lines 10-27).  The Python
object keeps a `baseline_ready` boolean next to a stats dict whose eight
numbers are `None` until `_compute_baseline` fills them all and sets the flag
in the same call (lines 41-63); flag and stats always change together, so they
are embedded as one `Option BaselineStats` (`none` = baseline not ready). -/
structure AnomalyDetector where
  baseline_size : ℕ
  z_threshold : ℝ
  num_txs_history : List ℝ
  total_amount_history : List ℝ
  max_amount_history : List ℝ
  time_delta_history : List ℝ
  stats : Option BaselineStats

/-- `AnomalyDetector.baseline_ready`. -/
def AnomalyDetector.baseline_ready (d : AnomalyDetector) : Bool :=
  d.stats.isSome

/-- `AnomalyDetector.__init__`: empty histories, baseline undefined. -/
def initDetector (baseline_size : ℕ) (z_threshold : ℝ) : AnomalyDetector :=
  { baseline_size := baseline_size
    z_threshold := z_threshold
    num_txs_history := []
    total_amount_history := []
    max_amount_history := []
    time_delta_history := []
    stats := none }

/-- `statistics.mean`: arithmetic mean of a list. -/
noncomputable def listMean (l : List ℝ) : ℝ := l.sum / l.length

/-- `statistics.stdev`: square root of the unbiased sample variance
(denominator `n - 1`). -/
noncomputable def sampleStdev (l : List ℝ) : ℝ :=
  Real.sqrt ((l.map (fun x => (x - listMean l) ^ 2)).sum / ((l.length : ℝ) - 1))

/-- The inner `mean_std` helper of `_compute_baseline` (src/anomaly.py lines
46-49): mean, and sample stdev guarded to `0.0` for a singleton list. -/
noncomputable def mean_std (l : List ℝ) : StatPair :=
  { mean := listMean l
    std := if 1 < l.length then sampleStdev l else 0 }

/-- `AnomalyDetector._compute_baseline` (src/anomaly.py lines 41-63): set all
four (mean, std) pairs from the accumulated histories and mark the baseline
ready. -/
noncomputable def compute_baseline (d : AnomalyDetector) : AnomalyDetector :=
  { d with
    stats := some {
      num_txs := mean_std d.num_txs_history
      total_amount := mean_std d.total_amount_history
      max_amount := mean_std d.max_amount_history
      time_delta := mean_std d.time_delta_history } }

/-- `AnomalyDetector._z_score` (src/anomaly.py lines 65-68). -/
noncomputable def z_score (value mean std : ℝ) : ℝ :=
  if std = 0 then 0 else (value - mean) / std

/-- Decision dict returned by `process_block` (src/anomaly.py lines 108-113).
`feature_z_scores` is `none` for the empty dict `{}` and `some` of a
`Features ℝ` for the four-entry dict filled in the scoring branch. -/
structure Decision where
  block_index : ℕ
  is_anomaly : Bool
  feature_z_scores : Option (Features ℝ)
  reason : String

/-- Reason string of the anomalous branch (src/anomaly.py line 141), an
f-string joining the anomalous feature names; the decimal rendering of the
float `z_threshold` after `"threshold = "` is elided. -/
def anomalousReason (anomalies : List String) : String :=
  "Anomalous features: " ++ String.intercalate ", " anomalies ++
    " (z-score threshold = )"

/-- `AnomalyDetector.process_block` (src/anomaly.py lines 90-145): append the
four feature values to the histories, then either report insufficient data,
compute the one-shot baseline, or score the block against the baseline. -/
noncomputable def process_block (d : AnomalyDetector) (block_index : ℕ)
    (features : Features ℝ) : AnomalyDetector × Decision :=
  let d := { d with
    num_txs_history := d.num_txs_history ++ [features.num_txs]
    total_amount_history := d.total_amount_history ++ [features.total_amount]
    max_amount_history := d.max_amount_history ++ [features.max_amount]
    time_delta_history := d.time_delta_history ++ [features.time_delta] }
  if d.num_txs_history.length < d.baseline_size then
    (d, { block_index := block_index, is_anomaly := false,
          feature_z_scores := none, reason := "Not enough data for baseline" })
  else
    match d.stats with
    | none =>
      (compute_baseline d,
       { block_index := block_index, is_anomaly := false,
         feature_z_scores := none,
         reason := "Baseline just computed; no detection yet" })
    | some s =>
      let z : Features ℝ :=
        { num_txs := z_score features.num_txs s.num_txs.mean s.num_txs.std
          total_amount :=
            z_score features.total_amount s.total_amount.mean s.total_amount.std
          max_amount :=
            z_score features.max_amount s.max_amount.mean s.max_amount.std
          time_delta :=
            z_score features.time_delta s.time_delta.mean s.time_delta.std }
      let anomalies : List String :=
        (if |z.num_txs| > d.z_threshold then ["num_txs"] else []) ++
        (if |z.total_amount| > d.z_threshold then ["total_amount"] else []) ++
        (if |z.max_amount| > d.z_threshold then ["max_amount"] else []) ++
        (if |z.time_delta| > d.z_threshold then ["time_delta"] else [])
      if anomalies = [] then
        (d, { block_index := block_index, is_anomaly := false,
              feature_z_scores := some z, reason := "Within normal range" })
      else
        (d, { block_index := block_index, is_anomaly := true,
              feature_z_scores := some z, reason := anomalousReason anomalies })

/-- Sequential processing of a stream of feature vectors from a detector
state, keeping only the state.  The `block_index` argument of `process_block`
is pass-through (it is copied into the returned decision and never read
otherwise), so the constant index 0 is supplied here. -/
noncomputable def run_detector (d : AnomalyDetector) (fs : List (Features ℝ)) :
    AnomalyDetector :=
  fs.foldl (fun s f => (process_block s 0 f).1) d

/-- The baseline `_compute_baseline` produces from a stream of feature
vectors: per feature, the (mean, sample-stdev) pair over that feature's
projection of the stream. -/
noncomputable def baselineOf (fs : List (Features ℝ)) : BaselineStats :=
  { num_txs := mean_std (fs.map Features.num_txs)
    total_amount := mean_std (fs.map Features.total_amount)
    max_amount := mean_std (fs.map Features.max_amount)
    time_delta := mean_std (fs.map Features.time_delta) }

lemma run_detector_append (d : AnomalyDetector) (fs : List (Features ℝ))
    (f : Features ℝ) :
    run_detector d (fs ++ [f]) = (process_block (run_detector d fs) 0 f).1 := by
  simp [run_detector, List.foldl_append]

lemma process_block_fst_of_scoring (d : AnomalyDetector) (idx : ℕ)
    (f : Features ℝ) (s : BaselineStats) (hs : d.stats = some s)
    (hlen : d.baseline_size ≤ d.num_txs_history.length + 1) :
    (process_block d idx f).1 =
      { d with
        num_txs_history := d.num_txs_history ++ [f.num_txs]
        total_amount_history := d.total_amount_history ++ [f.total_amount]
        max_amount_history := d.max_amount_history ++ [f.max_amount]
        time_delta_history := d.time_delta_history ++ [f.time_delta] } := by
  simp only [process_block, List.length_append, List.length_singleton]
  rw [if_neg (by omega), hs]
  simp [apply_ite Prod.fst]

lemma run_detector_eq (bs : ℕ) (hbs : 1 ≤ bs) (thr : ℝ)
    (fs : List (Features ℝ)) :
    run_detector (initDetector bs thr) fs =
      { baseline_size := bs
        z_threshold := thr
        num_txs_history := fs.map Features.num_txs
        total_amount_history := fs.map Features.total_amount
        max_amount_history := fs.map Features.max_amount
        time_delta_history := fs.map Features.time_delta
        stats := if bs ≤ fs.length then some (baselineOf (fs.take bs))
                 else none } := by
  induction fs using List.reverseRecOn with
  | nil =>
    rw [show ([] : List (Features ℝ)).length = 0 from rfl,
      if_neg (show ¬ bs ≤ 0 by omega)]
    simp [run_detector, initDetector]
  | append_singleton fs f ih =>
    rw [run_detector_append, ih]
    by_cases hA : fs.length + 1 < bs
    · simp only [process_block, List.length_append, List.length_singleton,
        List.length_map]
      rw [if_pos (by omega)]
      simp [List.map_append, if_neg (show ¬ bs ≤ fs.length by omega),
        if_neg (show ¬ bs ≤ fs.length + 1 by omega)]
    · by_cases hB : bs ≤ fs.length
      · rw [process_block_fst_of_scoring _ _ _ (baselineOf (fs.take bs))
          (by simp [hB]) (by simpa using by omega)]
        simp [List.map_append, if_pos hB,
          if_pos (show bs ≤ fs.length + 1 by omega),
          List.take_append_of_le_length hB]
      · have hbs' : bs = fs.length + 1 := by omega
        simp only [process_block, List.length_append, List.length_singleton,
          List.length_map]
        rw [if_neg (by omega)]
        rw [if_neg (show ¬ bs ≤ fs.length by omega)]
        simp only [compute_baseline, List.map_append, List.map_cons,
          List.map_nil]
        rw [if_pos (show bs ≤ fs.length + 1 by omega)]
        rw [List.take_of_length_le (by simp; omega)]
        simp [baselineOf, List.map_append]

lemma process_block_histories (d : AnomalyDetector) (idx : ℕ)
    (f : Features ℝ) :
    (process_block d idx f).1.num_txs_history =
      d.num_txs_history ++ [f.num_txs] ∧
    (process_block d idx f).1.total_amount_history =
      d.total_amount_history ++ [f.total_amount] ∧
    (process_block d idx f).1.max_amount_history =
      d.max_amount_history ++ [f.max_amount] ∧
    (process_block d idx f).1.time_delta_history =
      d.time_delta_history ++ [f.time_delta] := by
  simp only [process_block]
  split
  · exact ⟨rfl, rfl, rfl, rfl⟩
  · split
    · simp [compute_baseline]
    · simp [apply_ite Prod.fst]

lemma run_detector_histories (d : AnomalyDetector) (fs : List (Features ℝ)) :
    (run_detector d fs).num_txs_history =
      d.num_txs_history ++ fs.map Features.num_txs ∧
    (run_detector d fs).total_amount_history =
      d.total_amount_history ++ fs.map Features.total_amount ∧
    (run_detector d fs).max_amount_history =
      d.max_amount_history ++ fs.map Features.max_amount ∧
    (run_detector d fs).time_delta_history =
      d.time_delta_history ++ fs.map Features.time_delta := by
  induction fs using List.reverseRecOn with
  | nil => simp [run_detector]
  | append_singleton fs f ih =>
    rw [run_detector_append]
    obtain ⟨h1, h2, h3, h4⟩ := process_block_histories (run_detector d fs) 0 f
    rw [h1, h2, h3, h4, ih.1, ih.2.1, ih.2.2.1, ih.2.2.2]
    simp

/-- C7: the z-score computation is total and guarded: exact quotient when the
standard deviation is positive, and 0.0 whenever it is zero, so the division
branch never runs with a zero divisor. -/
theorem C7_z_score_guarded (v m s : ℝ) :
    (0 < s → z_score v m s = (v - m) / s) ∧ (s = 0 → z_score v m s = 0) := by
  constructor
  · intro hs
    rw [z_score, if_neg (ne_of_gt hs)]
  · intro hs
    rw [z_score, if_pos hs]

/-- Witness for C7 at value 5, mean 3 and standard deviations 2 and 0. -/
theorem C7_z_score_guarded_witness :
    (0:ℝ) < 2 ∧ z_score 5 3 2 = (5 - 3) / 2 ∧ z_score 5 3 0 = 0 :=
  ⟨by norm_num, (C7_z_score_guarded 5 3 2).1 (by norm_num),
    (C7_z_score_guarded 5 3 0).2 rfl⟩

/-- C8: every call to `process_block` appends exactly one value to each of the
four feature histories, in every detector state, so after N calls from the
initial state every history has length exactly N. -/
theorem C8_history_lengths (d : AnomalyDetector) (idx : ℕ) (f : Features ℝ)
    (bs : ℕ) (thr : ℝ) (fs : List (Features ℝ)) :
    ((process_block d idx f).1.num_txs_history.length =
        d.num_txs_history.length + 1 ∧
      (process_block d idx f).1.total_amount_history.length =
        d.total_amount_history.length + 1 ∧
      (process_block d idx f).1.max_amount_history.length =
        d.max_amount_history.length + 1 ∧
      (process_block d idx f).1.time_delta_history.length =
        d.time_delta_history.length + 1) ∧
    ((run_detector (initDetector bs thr) fs).num_txs_history.length =
        fs.length ∧
      (run_detector (initDetector bs thr) fs).total_amount_history.length =
        fs.length ∧
      (run_detector (initDetector bs thr) fs).max_amount_history.length =
        fs.length ∧
      (run_detector (initDetector bs thr) fs).time_delta_history.length =
        fs.length) := by
  obtain ⟨h1, h2, h3, h4⟩ := process_block_histories d idx f
  obtain ⟨g1, g2, g3, g4⟩ := run_detector_histories (initDetector bs thr) fs
  refine ⟨⟨?_, ?_, ?_, ?_⟩, ?_, ?_, ?_, ?_⟩
  · rw [h1]; simp
  · rw [h2]; simp
  · rw [h3]; simp
  · rw [h4]; simp
  · rw [g1]; simp [initDetector]
  · rw [g2]; simp [initDetector]
  · rw [g3]; simp [initDetector]
  · rw [g4]; simp [initDetector]

/-- C1: from the initial state, the baseline is undefined exactly as long as
fewer than `baseline_size` blocks have been processed; once at least
`baseline_size` blocks have been processed it is the fixed per-feature
(mean, sample-stdev) of the first `baseline_size` feature vectors, never
recomputed; and the transition call itself (the one making the history length
reach `baseline_size`) returns a decision with `is_anomaly = false` and an
empty z-score mapping while storing the baseline of the full history including
the just-appended value. -/
theorem C1_baseline_one_shot (bs : ℕ) (thr : ℝ) (fs : List (Features ℝ))
    (idx : ℕ) (f : Features ℝ) (hbs : 1 ≤ bs) :
    ((run_detector (initDetector bs thr) fs).stats = none ↔ fs.length < bs) ∧
    (bs ≤ fs.length →
      (run_detector (initDetector bs thr) fs).stats =
        some (baselineOf (fs.take bs))) ∧
    (fs.length + 1 = bs →
      (process_block (run_detector (initDetector bs thr) fs) idx f).2.is_anomaly
          = false ∧
      (process_block (run_detector (initDetector bs thr) fs) idx
          f).2.feature_z_scores = none ∧
      (process_block (run_detector (initDetector bs thr) fs) idx f).1.stats =
        some (baselineOf (fs ++ [f]))) := by
  rw [run_detector_eq bs hbs thr fs]
  refine ⟨?_, ?_, ?_⟩
  · by_cases h : bs ≤ fs.length
    · simp [if_pos h]; omega
    · simp [if_neg h]; omega
  · intro h
    simp [if_pos h]
  · intro h
    rw [if_neg (show ¬ bs ≤ fs.length by omega)]
    simp only [process_block, List.length_append, List.length_singleton,
      List.length_map]
    rw [if_neg (by omega)]
    simp [compute_baseline, baselineOf, List.map_append]

/-- Witness for C1 with `baseline_size = 2`, one already-processed block and
one further block, so that the transition clause is exercised. -/
theorem C1_baseline_one_shot_witness :
    1 ≤ 2 ∧
    (((run_detector (initDetector 2 0) [⟨0,0,0,0⟩]).stats = none ↔
        ([(⟨0,0,0,0⟩ : Features ℝ)].length < 2)) ∧
      (2 ≤ [(⟨0,0,0,0⟩ : Features ℝ)].length →
        (run_detector (initDetector 2 0) [⟨0,0,0,0⟩]).stats =
          some (baselineOf ([⟨0,0,0,0⟩].take 2))) ∧
      ([(⟨0,0,0,0⟩ : Features ℝ)].length + 1 = 2 →
        (process_block (run_detector (initDetector 2 0) [⟨0,0,0,0⟩]) 1
            ⟨1,2,3,4⟩).2.is_anomaly = false ∧
        (process_block (run_detector (initDetector 2 0) [⟨0,0,0,0⟩]) 1
            ⟨1,2,3,4⟩).2.feature_z_scores = none ∧
        (process_block (run_detector (initDetector 2 0) [⟨0,0,0,0⟩]) 1
            ⟨1,2,3,4⟩).1.stats =
          some (baselineOf ([⟨0,0,0,0⟩] ++ [⟨1,2,3,4⟩])))) :=
  ⟨by norm_num,
    C1_baseline_one_shot 2 0 [⟨0,0,0,0⟩] 1 ⟨1,2,3,4⟩ (by norm_num)⟩

/-- C6 counterexample: in the collecting state the code's reason string is
"Not enough data for baseline" (src/anomaly.py line 117), not the
"insufficient data" the claim states. -/
theorem C6_counterexample :
    (initDetector 2 0).num_txs_history.length + 1 <
      (initDetector 2 0).baseline_size ∧
    (process_block (initDetector 2 0) 0 ⟨1, 1, 1, 0⟩).2.reason ≠
      "insufficient data" := by
  constructor
  · simp [initDetector]
  · simp only [process_block, initDetector, List.nil_append,
      List.length_singleton]
    rw [if_pos (by norm_num)]
    decide

/-- C6 (amended): every call made while the history length after appending is
still strictly below `baseline_size` returns `is_anomaly = false`, an empty
z-score mapping and reason "Not enough data for baseline", and leaves the
baseline statistics untouched (the detector stays in the collecting state). -/
theorem C6_collecting (d : AnomalyDetector) (idx : ℕ) (f : Features ℝ)
    (h : d.num_txs_history.length + 1 < d.baseline_size) :
    (process_block d idx f).2.is_anomaly = false ∧
    (process_block d idx f).2.feature_z_scores = none ∧
    (process_block d idx f).2.reason = "Not enough data for baseline" ∧
    (process_block d idx f).1.stats = d.stats := by
  simp only [process_block, List.length_append, List.length_singleton]
  rw [if_pos (by omega)]
  exact ⟨rfl, rfl, rfl, rfl⟩

/-- Witness for C6 (amended) at a fresh detector with `baseline_size = 2`. -/
theorem C6_collecting_witness :
    (initDetector 2 0).num_txs_history.length + 1 <
      (initDetector 2 0).baseline_size ∧
    ((process_block (initDetector 2 0) 0 ⟨1, 1, 1, 0⟩).2.is_anomaly = false ∧
      (process_block (initDetector 2 0) 0 ⟨1, 1, 1, 0⟩).2.feature_z_scores =
        none ∧
      (process_block (initDetector 2 0) 0 ⟨1, 1, 1, 0⟩).2.reason =
        "Not enough data for baseline" ∧
      (process_block (initDetector 2 0) 0 ⟨1, 1, 1, 0⟩).1.stats =
        (initDetector 2 0).stats) :=
  ⟨by simp [initDetector],
    C6_collecting (initDetector 2 0) 0 ⟨1, 1, 1, 0⟩ (by simp [initDetector])⟩

/-- C3: in the scoring state (baseline computed, enough history) the returned
decision flags an anomaly exactly when at least one of the four features has
an absolute z-score strictly above the threshold. -/
theorem C3_anomaly_iff (d : AnomalyDetector) (idx : ℕ) (f : Features ℝ)
    (s : BaselineStats) (hs : d.stats = some s)
    (hlen : d.baseline_size ≤ d.num_txs_history.length + 1)
    (hthr : 0 ≤ d.z_threshold) :
    ((process_block d idx f).2.is_anomaly = true ↔
      (d.z_threshold < |z_score f.num_txs s.num_txs.mean s.num_txs.std| ∨
        d.z_threshold <
          |z_score f.total_amount s.total_amount.mean s.total_amount.std| ∨
        d.z_threshold <
          |z_score f.max_amount s.max_amount.mean s.max_amount.std| ∨
        d.z_threshold <
          |z_score f.time_delta s.time_delta.mean s.time_delta.std|)) := by
  simp only [process_block, List.length_append, List.length_singleton]
  rw [if_neg (by omega), hs]
  simp only [gt_iff_lt]
  split_ifs with h1 h2 h3 h4 <;> simp_all

/-- Witness for C3 at a detector whose baseline is (mean 0, std 1) for every
feature and whose threshold is 1: a block with `num_txs = 2` is anomalous. -/
noncomputable def sampleScoringDetector : AnomalyDetector :=
  { baseline_size := 1
    z_threshold := 1
    num_txs_history := [0]
    total_amount_history := [0]
    max_amount_history := [0]
    time_delta_history := [0]
    stats := some ⟨⟨0, 1⟩, ⟨0, 1⟩, ⟨0, 1⟩, ⟨0, 1⟩⟩ }

/-- Witness for C3: all hypotheses hold at `sampleScoringDetector` and the
biconditional is obtained from the theorem there. -/
theorem C3_anomaly_iff_witness :
    sampleScoringDetector.stats = some ⟨⟨0, 1⟩, ⟨0, 1⟩, ⟨0, 1⟩, ⟨0, 1⟩⟩ ∧
    sampleScoringDetector.baseline_size ≤
      sampleScoringDetector.num_txs_history.length + 1 ∧
    0 ≤ sampleScoringDetector.z_threshold ∧
    ((process_block sampleScoringDetector 0 ⟨2, 0, 0, 0⟩).2.is_anomaly = true ↔
      (sampleScoringDetector.z_threshold < |z_score 2 0 1| ∨
        sampleScoringDetector.z_threshold < |z_score 0 0 1| ∨
        sampleScoringDetector.z_threshold < |z_score 0 0 1| ∨
        sampleScoringDetector.z_threshold < |z_score 0 0 1|)) :=
  ⟨rfl, by simp [sampleScoringDetector], by simp [sampleScoringDetector],
    C3_anomaly_iff sampleScoringDetector 0 ⟨2, 0, 0, 0⟩ _ rfl
      (by simp [sampleScoringDetector]) (by simp [sampleScoringDetector])⟩

/-- C4: `check_rules` alerts exactly when its violations list is non-empty;
each of the three rules contributes its violation independently of the others,
rule 1 exactly when `max_amount` exceeds `max_single_tx_amount`, rule 2
exactly when `total_amount` exceeds `max_block_total_amount`, rule 3 exactly
when `time_delta` is non-zero and below `min_time_delta`; in particular a
`time_delta` of exactly 0 never yields a rule-3 violation. -/
theorem C4_check_rules (c : RuleBasedSecurityChecker) (f : Features ℚ) :
    ((check_rules c f).rule_alert = true ↔
      (check_rules c f).violations ≠ []) ∧
    (RuleViolation.rule1 ∈ (check_rules c f).violations ↔
      c.max_single_tx_amount < f.max_amount) ∧
    (RuleViolation.rule2 ∈ (check_rules c f).violations ↔
      c.max_block_total_amount < f.total_amount) ∧
    (RuleViolation.rule3 ∈ (check_rules c f).violations ↔
      (f.time_delta ≠ 0 ∧ f.time_delta < c.min_time_delta)) ∧
    (f.time_delta = 0 → RuleViolation.rule3 ∉ (check_rules c f).violations) := by
  simp only [check_rules, gt_iff_lt]
  split_ifs with h1 h2 h3 <;> simp_all

/-- Witness for C4 at the spec's test thresholds (2000, 5000, 0.02) and a
feature vector violating all three rules. -/
theorem C4_check_rules_witness :
    ((check_rules ⟨2000, 5000, 1/50⟩ ⟨3, 6000, 2500, 1/100⟩).rule_alert = true ↔
      (check_rules ⟨2000, 5000, 1/50⟩ ⟨3, 6000, 2500, 1/100⟩).violations ≠ []) ∧
    (RuleViolation.rule1 ∈
        (check_rules ⟨2000, 5000, 1/50⟩ ⟨3, 6000, 2500, 1/100⟩).violations ↔
      (2000 : ℚ) < 2500) ∧
    (RuleViolation.rule2 ∈
        (check_rules ⟨2000, 5000, 1/50⟩ ⟨3, 6000, 2500, 1/100⟩).violations ↔
      (5000 : ℚ) < 6000) ∧
    (RuleViolation.rule3 ∈
        (check_rules ⟨2000, 5000, 1/50⟩ ⟨3, 6000, 2500, 1/100⟩).violations ↔
      ((1/100 : ℚ) ≠ 0 ∧ (1/100 : ℚ) < 1/50)) ∧
    ((1/100 : ℚ) = 0 → RuleViolation.rule3 ∉
      (check_rules ⟨2000, 5000, 1/50⟩ ⟨3, 6000, 2500, 1/100⟩).violations) :=
  C4_check_rules ⟨2000, 5000, 1/50⟩ ⟨3, 6000, 2500, 1/100⟩

/-- C9: a strictly negative `time_delta` (block timestamped before its
predecessor) always yields a rule-3 violation when `min_time_delta` is
non-negative: the genesis exemption only covers `time_delta = 0`. -/
theorem C9_negative_time_delta (c : RuleBasedSecurityChecker) (f : Features ℚ)
    (h : f.time_delta < 0) (hm : 0 ≤ c.min_time_delta) :
    RuleViolation.rule3 ∈ (check_rules c f).violations := by
  simp only [check_rules, gt_iff_lt]
  rw [if_pos ⟨ne_of_lt h, lt_of_lt_of_le h hm⟩]
  simp

/-- Witness for C9 at `time_delta = -1` and `min_time_delta = 0.02`. -/
theorem C9_negative_time_delta_witness :
    ((⟨0, 0, 0, -1⟩ : Features ℚ)).time_delta < 0 ∧
    (0 : ℚ) ≤ ((⟨2000, 5000, 1/50⟩ : RuleBasedSecurityChecker)).min_time_delta ∧
    RuleViolation.rule3 ∈
      (check_rules ⟨2000, 5000, 1/50⟩ ⟨0, 0, 0, -1⟩).violations :=
  ⟨by norm_num, by norm_num,
    C9_negative_time_delta ⟨2000, 5000, 1/50⟩ ⟨0, 0, 0, -1⟩ (by norm_num)
      (by norm_num)⟩

/-- C10: the violations list is always a sublist of
[rule1, rule2, rule3] — hence it has at most one entry per rule, at most three
entries, and its entries appear in the fixed order R1, R2, R3. -/
theorem C10_violations_ordered (c : RuleBasedSecurityChecker)
    (f : Features ℚ) :
    List.Sublist (check_rules c f).violations
      [RuleViolation.rule1, RuleViolation.rule2, RuleViolation.rule3] ∧
    (check_rules c f).violations.length ≤ 3 ∧
    (check_rules c f).violations.count RuleViolation.rule1 ≤ 1 ∧
    (check_rules c f).violations.count RuleViolation.rule2 ≤ 1 ∧
    (check_rules c f).violations.count RuleViolation.rule3 ≤ 1 := by
  simp only [check_rules]
  split_ifs <;> exact ⟨by decide, by decide, by decide, by decide, by decide⟩

lemma foldl_max_comm (a b : ℚ) (l : List ℚ) :
    l.foldl max (max a b) = max a (l.foldl max b) := by
  induction l generalizing b with
  | nil => rfl
  | cons c l ih =>
    simp only [List.foldl_cons]
    rw [max_assoc, ih]

lemma maxOrDefault_maximum (x : ℚ) (xs : List ℚ) (d : ℚ) :
    (x :: xs).maximum = some (maxOrDefault (x :: xs) d) := by
  induction xs generalizing x with
  | nil =>
    rw [List.maximum_singleton]
    rfl
  | cons y ys ih =>
    rw [List.maximum_cons, ih y, maxOrDefault, maxOrDefault]
    simp only [List.foldl_cons]
    rw [foldl_max_comm]
    rfl

/-- C5: `extract_features` is a pure function of the current block and the
optional previous block, returning exactly the four fields: the transaction
count, the total and maximum transaction amounts (both 0 for an empty
transaction list, the maximum being a genuine maximum otherwise), and the
timestamp difference to the previous block (0 when there is none). -/
theorem C5_extract_features (cb : Block) (pb : Block) (prev : Option Block) :
    (extract_features cb prev).num_txs = (cb.transactions.length : ℚ) ∧
    (extract_features cb prev).total_amount =
      (cb.transactions.map Transaction.amount).sum ∧
    (cb.transactions = [] →
      (extract_features cb prev).total_amount = 0 ∧
      (extract_features cb prev).max_amount = 0) ∧
    (cb.transactions ≠ [] →
      (cb.transactions.map Transaction.amount).maximum =
        some ((extract_features cb prev).max_amount)) ∧
    (extract_features cb (some pb)).time_delta = cb.timestamp - pb.timestamp ∧
    (extract_features cb none).time_delta = 0 := by
  refine ⟨rfl, ?_, ?_, ?_, rfl, rfl⟩
  · by_cases h : cb.transactions = [] <;> simp [extract_features, h]
  · intro h
    simp [extract_features, h, maxOrDefault]
  · intro h
    obtain ⟨t, ts, hts⟩ := List.exists_cons_of_ne_nil h
    simp only [extract_features, hts, List.map_cons]
    exact maxOrDefault_maximum _ _ 0

/-- Witness for C5 at a two-transaction block with a predecessor. -/
theorem C5_extract_features_witness :
    (extract_features ⟨1, 3, [⟨"a", "b", 5⟩, ⟨"c", "d", 2⟩], "h", 0⟩
        (some ⟨0, 1, [], "g", 0⟩)).num_txs =
      (([⟨"a", "b", 5⟩, ⟨"c", "d", 2⟩] : List Transaction).length : ℚ) ∧
    (extract_features ⟨1, 3, [⟨"a", "b", 5⟩, ⟨"c", "d", 2⟩], "h", 0⟩
        (some ⟨0, 1, [], "g", 0⟩)).total_amount =
      (([⟨"a", "b", 5⟩, ⟨"c", "d", 2⟩] : List Transaction).map
        Transaction.amount).sum ∧
    (([⟨"a", "b", 5⟩, ⟨"c", "d", 2⟩] : List Transaction) = [] →
      (extract_features ⟨1, 3, [⟨"a", "b", 5⟩, ⟨"c", "d", 2⟩], "h", 0⟩
          (some ⟨0, 1, [], "g", 0⟩)).total_amount = 0 ∧
      (extract_features ⟨1, 3, [⟨"a", "b", 5⟩, ⟨"c", "d", 2⟩], "h", 0⟩
          (some ⟨0, 1, [], "g", 0⟩)).max_amount = 0) ∧
    (([⟨"a", "b", 5⟩, ⟨"c", "d", 2⟩] : List Transaction) ≠ [] →
      (([⟨"a", "b", 5⟩, ⟨"c", "d", 2⟩] : List Transaction).map
          Transaction.amount).maximum =
        some ((extract_features ⟨1, 3, [⟨"a", "b", 5⟩, ⟨"c", "d", 2⟩], "h", 0⟩
          (some ⟨0, 1, [], "g", 0⟩)).max_amount)) ∧
    (extract_features ⟨1, 3, [⟨"a", "b", 5⟩, ⟨"c", "d", 2⟩], "h", 0⟩
        (some ⟨0, 1, [], "g", 0⟩)).time_delta =
      (⟨1, 3, [⟨"a", "b", 5⟩, ⟨"c", "d", 2⟩], "h", 0⟩ : Block).timestamp -
        (⟨0, 1, [], "g", 0⟩ : Block).timestamp ∧
    (extract_features ⟨1, 3, [⟨"a", "b", 5⟩, ⟨"c", "d", 2⟩], "h", 0⟩
        none).time_delta = 0 :=
  C5_extract_features ⟨1, 3, [⟨"a", "b", 5⟩, ⟨"c", "d", 2⟩], "h", 0⟩
    ⟨0, 1, [], "g", 0⟩ (some ⟨0, 1, [], "g", 0⟩)

lemma listMean_const (a : ℝ) : listMean [a, a, a] = a := by
  simp [listMean]
  ring

lemma mean_std_const (a : ℝ) : mean_std [a, a, a] = ⟨a, 0⟩ := by
  rw [mean_std]
  simp only [List.length_cons, List.length_nil, StatPair.mk.injEq]
  rw [if_pos (by norm_num)]
  refine ⟨listMean_const a, ?_⟩
  rw [sampleStdev, listMean_const a]
  simp [Real.sqrt_eq_zero']

lemma listMean_011 : listMean [0, 1, 1] = 2 / 3 := by
  simp [listMean]
  norm_num

lemma mean_std_011 : mean_std [0, 1, 1] = ⟨2 / 3, Real.sqrt (1 / 3)⟩ := by
  rw [mean_std]
  simp only [List.length_cons, List.length_nil, StatPair.mk.injEq]
  rw [if_pos (by norm_num)]
  refine ⟨listMean_011, ?_⟩
  rw [sampleStdev, listMean_011]
  congr 1
  norm_num

/-- The end-to-end scenario of the spec: `baseline_size = 3`, threshold 3,
and three blocks with features (2, 10, 5, 0), (2, 10, 5, 1), (2, 10, 5, 1). -/
noncomputable def scenarioDetector : AnomalyDetector :=
  run_detector (initDetector 3 3)
    [⟨2, 10, 5, 0⟩, ⟨2, 10, 5, 1⟩, ⟨2, 10, 5, 1⟩]

lemma scenarioDetector_eq :
    scenarioDetector =
      { baseline_size := 3
        z_threshold := 3
        num_txs_history := [2, 2, 2]
        total_amount_history := [10, 10, 10]
        max_amount_history := [5, 5, 5]
        time_delta_history := [0, 1, 1]
        stats := some ⟨⟨2, 0⟩, ⟨10, 0⟩, ⟨5, 0⟩, ⟨2 / 3, Real.sqrt (1 / 3)⟩⟩ } := by
  rw [scenarioDetector, run_detector_eq 3 (by norm_num) 3]
  simp only [List.map_cons, List.map_nil, List.length_cons, List.length_nil]
  rw [if_pos (by norm_num), List.take_of_length_le (by simp)]
  simp [AnomalyDetector.mk.injEq, baselineOf, List.map_cons, List.map_nil,
    Option.some.injEq, BaselineStats.mk.injEq, mean_std_const, mean_std_011]

lemma sqrt_third_pos : (0 : ℝ) < Real.sqrt (1 / 3) :=
  Real.sqrt_pos.mpr (by norm_num)

lemma z_score_time_delta_eval :
    z_score 1 (2 / 3) (Real.sqrt (1 / 3)) = Real.sqrt 3 / 3 := by
  rw [z_score, if_neg (ne_of_gt sqrt_third_pos)]
  rw [show (1 : ℝ) / 3 = 3⁻¹ by norm_num, Real.sqrt_inv]
  have hsq : Real.sqrt 3 * Real.sqrt 3 = 3 :=
    Real.mul_self_sqrt (by norm_num)
  have hne : Real.sqrt 3 ≠ 0 :=
    ne_of_gt (Real.sqrt_pos.mpr (by norm_num))
  field_simp
  nlinarith [hsq]

lemma sqrt_three_lt_three : Real.sqrt 3 < 3 := by
  have h := Real.sqrt_lt_sqrt (by norm_num : (0:ℝ) ≤ 3) (by norm_num : (3:ℝ) < 9)
  rwa [show (9 : ℝ) = 3 ^ 2 by norm_num, Real.sqrt_sq (by norm_num)] at h

lemma scenarioStep4_snd :
    (process_block scenarioDetector 3 ⟨2, 10, 5, 1⟩).2 =
      { block_index := 3
        is_anomaly := false
        feature_z_scores := some ⟨0, 0, 0, Real.sqrt 3 / 3⟩
        reason := "Within normal range" } := by
  have hz0 : ∀ v : ℝ, z_score v v 0 = 0 := by
    intro v
    rw [z_score, if_pos rfl]
  have hn0 : ¬ ((3:ℝ) < |(0:ℝ)|) := by norm_num
  have hna : ¬ ((3:ℝ) < |Real.sqrt 3 / 3|) := by
    have h1 : (0:ℝ) ≤ Real.sqrt 3 / 3 := by positivity
    rw [abs_of_nonneg h1]
    have := sqrt_three_lt_three
    intro hcon
    linarith
  rw [scenarioDetector_eq]
  simp only [process_block, List.length_append, List.length_cons,
    List.length_nil, List.length_singleton]
  rw [if_neg (by norm_num)]
  simp only [hz0, z_score_time_delta_eval, gt_iff_lt, if_neg hn0, if_neg hna,
    List.append_nil, List.nil_append]
  simp

/-- C2 counterexample: in the spec's end-to-end scenario (baseline_size 3,
features (2,10,5,·) with time deltas [0,1,1]), the 4th identical block does
NOT yield all four z-scores equal to 0.0: the time_delta feature was not
constant over the baseline window, so its z-score is √3/3 ≠ 0. -/
theorem C2_counterexample :
    (process_block scenarioDetector 3 ⟨2, 10, 5, 1⟩).2.feature_z_scores ≠
      some ⟨0, 0, 0, 0⟩ := by
  rw [scenarioStep4_snd]
  simp only [ne_eq, Option.some.injEq, Features.mk.injEq, not_and]
  intro _ _ _
  have h := Real.sqrt_pos.mpr (show (0:ℝ) < 3 by norm_num)
  intro hcon
  rw [div_eq_zero_iff] at hcon
  rcases hcon with hcon | hcon <;> linarith

/-- C2 (amended): in the spec's scenario the baseline after the third call has
means (2, 10, 5, 2/3) with standard deviation 0 for the three constant
features and √(1/3) for time_delta, and processing a 4th block with the same
transactions one time unit later (features (2, 10, 5, 1)) yields z-scores
(0, 0, 0, √3/3) — zero exactly for the constant features — and
`is_anomaly = false`. -/
theorem C2_amended :
    scenarioDetector.stats =
      some ⟨⟨2, 0⟩, ⟨10, 0⟩, ⟨5, 0⟩, ⟨2 / 3, Real.sqrt (1 / 3)⟩⟩ ∧
    (process_block scenarioDetector 3 ⟨2, 10, 5, 1⟩).2.feature_z_scores =
      some ⟨0, 0, 0, Real.sqrt 3 / 3⟩ ∧
    (process_block scenarioDetector 3 ⟨2, 10, 5, 1⟩).2.is_anomaly = false := by
  refine ⟨?_, ?_, ?_⟩
  · rw [scenarioDetector_eq]
  · rw [scenarioStep4_snd]
  · rw [scenarioStep4_snd]

end BlockSim
